import Mathlib

/-!
Shallow embedding of `src/cmsis-plus/rtos/os-main.cpp` (µOS++ bootstrap):
the argument capsule `thread::main_args_t`, the thread body
`thread::_main_trampoline`, and the weak default `main` that initializes the
scheduler, populates the capsule, allocates the main stack, builds the thread
attributes, creates the main thread and starts the scheduler, joining the main
thread on kernels where `scheduler::start` returns.

Modelling choices:
* `char** argv` is an opaque type parameter `A`: the bootstrap and the
  trampoline only ever pass the vector through, never inspect it.
* a C `int` is a mathematical `Int`: no arithmetic is performed on the exit
  status or on `argc`, so no overflow point exists in this file.
* the user entry point may diverge (`while(1)` loops are legal in `os_main`),
  so its type is `Int → A → Option Int`, `none` meaning it never returns.
* external collaborators (scheduler, thread creation, join) are abstracted:
  whether `scheduler::start` returns and whether the joined thread reaches a
  terminal state are explicit parameters of the lifetime synchronizer, and
  thread creation is modelled from the spec (its code is not in this
  repository's sources).
* executions are recorded as event traces so that ordering properties are
  statements about lists.
-/

namespace OsMain

/-- Addresses of the process-wide static objects of `os-main.cpp`. An
address is only ever formed and passed along, never dereferenced by the code
modelled here, so an abstract inductive of the distinct regions suffices. -/
inductive Addr where
  | main_stack_base : Addr
  | args_addr : Addr
  | other : Nat → Addr
deriving DecidableEq, Repr

/-- The argument capsule `thread::main_args_t`: the user entry point, the
argument count and the argument vector, packed because the native thread
takes a single opaque argument. `A` stands for `char**`. -/
structure main_args_t (A : Type) where
  func : Int → A → Option Int
  argc : Int
  argv : A

/-- Outcome of running a thread body to completion (or not). The trampoline
body either requests whole-process termination via `std::exit` or runs
forever inside the user entry point; `terminated` (a normal return of the
thread body, after which a join on the thread completes) is listed because
the kernel thread interface admits it, but the trampoline never produces it. -/
inductive ThreadOutcome where
  | processExit : Int → ThreadOutcome
  | runsForever : ThreadOutcome
  | terminated : ThreadOutcome
deriving DecidableEq, Repr

/-- Events performed by the trampoline thread body. -/
inductive TrampEvent (A : Type) where
  | capsuleRead : TrampEvent A
  | invoke : Int → A → TrampEvent A
  | exitRequest : Int → TrampEvent A

/-- The thread body `thread::_main_trampoline`: reinterpret the opaque
argument as the capsule, call `args->func (args->argc, args->argv)`, and pass
the result to `std::exit`. Returns the event trace of the body together with
its outcome; when the user entry point never returns, the exit request is
never reached. -/
def _main_trampoline {A : Type} (args : main_args_t A) :
    List (TrampEvent A) × ThreadOutcome :=
  match args.func args.argc args.argv with
  | some v =>
      ([TrampEvent.capsuleRead, TrampEvent.invoke args.argc args.argv,
        TrampEvent.exitRequest v],
       ThreadOutcome.processExit v)
  | none =>
      ([TrampEvent.capsuleRead, TrampEvent.invoke args.argc args.argv],
       ThreadOutcome.runsForever)

/-- Boolean classifier: is this trampoline event the entry-point invocation? -/
def isInvoke {A : Type} : TrampEvent A → Bool
  | TrampEvent.invoke _ _ => true
  | _ => false

/-- Boolean classifier: is this trampoline event a read of the capsule? -/
def isCapsuleRead {A : Type} : TrampEvent A → Bool
  | TrampEvent.capsuleRead => true
  | _ => false

/-- Boolean classifier: is this trampoline event a process-exit request? -/
def isExitRequest {A : Type} : TrampEvent A → Bool
  | TrampEvent.exitRequest _ => true
  | _ => false

/-- Outcome of a thread-creation attempt, as reported by the kernel. -/
inductive CreateOutcome where
  | created : CreateOutcome
  | fatalConfigError : CreateOutcome
deriving DecidableEq, Repr

/-- Modelled from the spec: the kernel thread-creation collaborator (the
`Thread` constructor, whose code is not in this repository's sources under
`src/`). Per the spec, an unusable stack configuration — a zero stack size —
is detected by the kernel and reported as a fatal configuration error; it
never silently succeeds. The bootstrap inherits, and does not reimplement,
this contract. -/
def kernel_thread_create (stackSizeBytes : Nat) : CreateOutcome :=
  if stackSizeBytes = 0 then CreateOutcome.fatalConfigError
  else CreateOutcome.created

/-- Events performed by the bootstrap driver context, in the order the
statements of `main` execute them. -/
inductive BootEvent (A : Type) where
  | tracePrintf : BootEvent A
  | schedInit : BootEvent A
  | capsuleWrite : Int → A → BootEvent A
  | threadCreate : String → Addr → Nat → Addr → CreateOutcome → BootEvent A
  | schedStart : BootEvent A
  | threadJoin : BootEvent A
  | returnStatus : Int → BootEvent A

/-- Boolean classifier: scheduler-initialization event. -/
def isSchedInit {A : Type} : BootEvent A → Bool
  | BootEvent.schedInit => true
  | _ => false

/-- Boolean classifier: capsule-population event. -/
def isCapsuleWrite {A : Type} : BootEvent A → Bool
  | BootEvent.capsuleWrite _ _ => true
  | _ => false

/-- Boolean classifier: thread-creation event. -/
def isThreadCreate {A : Type} : BootEvent A → Bool
  | BootEvent.threadCreate _ _ _ _ _ => true
  | _ => false

/-- Boolean classifier: scheduler-start event. -/
def isSchedStart {A : Type} : BootEvent A → Bool
  | BootEvent.schedStart => true
  | _ => false

/-- Boolean classifier: the bootstrap executing its final `return 0`. -/
def isReturnStatus {A : Type} : BootEvent A → Bool
  | BootEvent.returnStatus _ => true
  | _ => false

/-- The lifetime synchronizer: the tail of `main` after thread creation,
`scheduler::start (); main_thread.join (); return 0;`. `startReturns`
abstracts whether the kernel's `scheduler::start` returns to its caller
(kernel-defined); `joinCompletes` abstracts whether the joined main thread
reaches its terminal state, so that `join` returns (collaborator-defined).
Yields the events this context executes, and `some r` exactly when the
bootstrap's final `return r` statement runs. -/
def lifetime_synchronizer (A : Type) (startReturns joinCompletes : Bool) :
    List (BootEvent A) × Option Int :=
  if startReturns then
    if joinCompletes then
      ([BootEvent.schedStart, BootEvent.threadJoin, BootEvent.returnStatus 0],
       some 0)
    else
      ([BootEvent.schedStart, BootEvent.threadJoin], none)
  else
    ([BootEvent.schedStart], none)

/-- How the whole process run ends. `exited` is a `std::exit` issued by the
trampoline; `returnedFromMain` is the bootstrap falling off the end of
`main`; `fatalError` is the kernel aborting on a fatal configuration error;
`noTermination` means the process never terminates. -/
inductive ProcessResult where
  | exited : Int → ProcessResult
  | returnedFromMain : Int → ProcessResult
  | fatalError : ProcessResult
  | noTermination : ProcessResult
deriving DecidableEq, Repr

/-- Thread attributes, as configured by the bootstrap: the name passed to
the `Attributes` constructor and the two stack fields assigned afterwards. -/
structure Attributes where
  name : String
  th_stack_address : Addr
  th_stack_size_bytes : Nat
deriving DecidableEq, Repr

/-- Everything a run of the bootstrap produces: the populated capsule, the
byte extent of the execution stack buffer (`sizeof(main_stack)`), the thread
attributes, the bootstrap context's event trace, and the process result. -/
structure BootResult (A : Type) where
  args : main_args_t A
  main_stack_size_bytes : Nat
  attr : Attributes
  boot_trace : List (BootEvent A)
  result : ProcessResult

/-- The weak default `main` of `os-main.cpp`, together with the process-level
consequence of the thread it creates. Parameters: `startReturns` is the
kernel's `scheduler::start` behavior; `os_main` is the user entry point;
`argc`, `argv` are the process arguments; `cfgStackBytes` is the build-time
constant `OS_INTEGER_RTOS_MAIN_STACK_SIZE_BYTES`; `elemSize` is
`sizeof(stack::element_t)`.

Statement by statement: trace printf; `scheduler::initialize`; populate the
static capsule with `os_main`, `argc`, `argv`; reserve
`static stack::element_t main_stack[cfgStackBytes / elemSize]`, whose byte
extent is `cfgStackBytes / elemSize * elemSize`; build attributes named
"main" pointing at that buffer with exactly that size; create the main
thread with the trampoline as body and the capsule's address as argument
(creation outcome per the kernel contract); then the lifetime synchronizer.
On a fatal creation error the kernel ends the process there and no later
statement runs. The joined thread reaches a terminal state only if the
trampoline body returns normally, which it never does: its only behaviors
are `std::exit` or running forever, and a `std::exit` from the trampoline
ends the whole process with that status before any join can complete. -/
def main {A : Type} (startReturns : Bool) (os_main : Int → A → Option Int)
    (argc : Int) (argv : A) (cfgStackBytes elemSize : Nat) : BootResult A :=
  let args : main_args_t A := ⟨os_main, argc, argv⟩
  let stackSize : Nat := cfgStackBytes / elemSize * elemSize
  let attr : Attributes := ⟨"main", Addr.main_stack_base, stackSize⟩
  let createOut := kernel_thread_create attr.th_stack_size_bytes
  let tOut := (_main_trampoline args).snd
  let joinCompletes := decide (tOut = ThreadOutcome.terminated)
  let sync := lifetime_synchronizer A startReturns joinCompletes
  { args := args
    main_stack_size_bytes := stackSize
    attr := attr
    boot_trace :=
      [BootEvent.tracePrintf, BootEvent.schedInit,
       BootEvent.capsuleWrite argc argv,
       BootEvent.threadCreate "main" Addr.main_stack_base stackSize
         Addr.args_addr createOut] ++
      (match createOut with
       | CreateOutcome.created => sync.fst
       | CreateOutcome.fatalConfigError => [])
    result :=
      match createOut with
      | CreateOutcome.fatalConfigError => ProcessResult.fatalError
      | CreateOutcome.created =>
          match tOut with
          | ThreadOutcome.processExit v => ProcessResult.exited v
          | ThreadOutcome.runsForever => ProcessResult.noTermination
          | ThreadOutcome.terminated =>
              match sync.snd with
              | some r => ProcessResult.returnedFromMain r
              | none => ProcessResult.noTermination }

/-- Storage durations of C++ objects relevant here. -/
inductive StorageDuration where
  | staticStorage : StorageDuration
  | automaticStorage : StorageDuration
deriving DecidableEq, Repr

/-- Storage duration of `static thread::main_args_t args` in `main`. -/
def args_storage : StorageDuration := StorageDuration.staticStorage

/-- Storage duration of `static stack::element_t main_stack[...]` in `main`. -/
def main_stack_storage : StorageDuration := StorageDuration.staticStorage

/-- Storage duration of `static Thread main_thread {...}` in `main`. -/
def main_thread_storage : StorageDuration := StorageDuration.staticStorage

/-- C++ storage semantics: an object is reclaimed while the process (and so
any thread in it) may still run exactly when it lives on a transient call
frame; an object of static storage duration persists to process end. -/
def reclaimedBeforeProcessEnd : StorageDuration → Bool
  | StorageDuration.staticStorage => false
  | StorageDuration.automaticStorage => true


/-! Theorems settling the claims. -/

/-- C1: for every integer value v returned by the user entry point (zero and
negative values included), the process-termination request issued by the
trampoline carries exactly v: the outcome is `processExit v`, an exit request
for v is in the trace, and every exit request in the trace is for exactly v —
no translation, clamping or error classification happens at this layer. -/
theorem trampoline_exit_status_verbatim {A : Type} (args : main_args_t A)
    (v : Int) (h : args.func args.argc args.argv = some v) :
    (_main_trampoline args).snd = ThreadOutcome.processExit v
    ∧ TrampEvent.exitRequest v ∈ (_main_trampoline args).fst
    ∧ (∀ e ∈ (_main_trampoline args).fst,
        isExitRequest e = true → e = TrampEvent.exitRequest v) := by
  refine ⟨?_, ?_, ?_⟩ <;>
    simp [_main_trampoline, h, isExitRequest]

/-- Witness for C1 at a negative return value. -/
theorem trampoline_exit_status_verbatim_witness :
    (_main_trampoline (⟨fun _ _ => some (-7), 2, ["prog", "-x"]⟩ :
        main_args_t (List String))).snd = ThreadOutcome.processExit (-7)
    ∧ TrampEvent.exitRequest (-7) ∈
        (_main_trampoline (⟨fun _ _ => some (-7), 2, ["prog", "-x"]⟩ :
          main_args_t (List String))).fst :=
  ⟨(trampoline_exit_status_verbatim _ (-7) rfl).1,
   (trampoline_exit_status_verbatim _ (-7) rfl).2.1⟩

/-- C2: for every capsule, the trampoline invokes the captured entry point
exactly once, with exactly the stored argument count and vector (the single
invoke event in its trace carries `args.argc` and `args.argv` unchanged), and
when the entry point returns a result the trampoline requests process
termination with that result. -/
theorem trampoline_invokes_capsule_once {A : Type} (args : main_args_t A) :
    (_main_trampoline args).fst.countP isInvoke = 1
    ∧ TrampEvent.invoke args.argc args.argv ∈ (_main_trampoline args).fst
    ∧ (∀ e ∈ (_main_trampoline args).fst,
        isInvoke e = true → e = TrampEvent.invoke args.argc args.argv)
    ∧ (∀ v : Int, args.func args.argc args.argv = some v →
        (_main_trampoline args).snd = ThreadOutcome.processExit v) := by
  rcases hf : args.func args.argc args.argv with _ | v <;>
    refine ⟨?_, ?_, ?_, ?_⟩ <;>
      simp [_main_trampoline, hf, isInvoke, List.countP_cons]

/-- Witness for C2 at a concrete capsule. -/
theorem trampoline_invokes_capsule_once_witness :
    (_main_trampoline (⟨fun n a => some (n + a.length), 3,
        ["prog", "-x", "42"]⟩ : main_args_t (List String))).fst.countP
      isInvoke = 1
    ∧ (_main_trampoline (⟨fun n a => some (n + a.length), 3,
        ["prog", "-x", "42"]⟩ : main_args_t (List String))).snd
      = ThreadOutcome.processExit 6 :=
  ⟨(trampoline_invokes_capsule_once _).1,
   (trampoline_invokes_capsule_once _).2.2.2 6 rfl⟩

/-- C6: the stack address and stack size installed in the thread attributes
equal the base address and the byte extent (`sizeof`) of the execution stack
buffer the bootstrap reserved, the thread is named "main", and the recorded
byte extent is exactly `sizeof(main_stack)`. -/
theorem attr_matches_stack_buffer {A : Type} (sr : Bool)
    (f : Int → A → Option Int) (argc : Int) (argv : A) (cfg elem : Nat) :
    (main sr f argc argv cfg elem).attr.th_stack_address = Addr.main_stack_base
    ∧ (main sr f argc argv cfg elem).attr.th_stack_size_bytes
        = (main sr f argc argv cfg elem).main_stack_size_bytes
    ∧ (main sr f argc argv cfg elem).attr.name = "main" :=
  ⟨rfl, rfl, rfl⟩

/-- C9: the argument capsule, the execution stack buffer and the main thread
handle all have static (process-wide) storage duration in the source, so none
of them lives on the bootstrap routine's transient call frame and none is
reclaimed while the process — hence the main thread — can still observe it. -/
theorem static_storage_duration :
    args_storage = StorageDuration.staticStorage
    ∧ main_stack_storage = StorageDuration.staticStorage
    ∧ main_thread_storage = StorageDuration.staticStorage
    ∧ reclaimedBeforeProcessEnd args_storage = false
    ∧ reclaimedBeforeProcessEnd main_stack_storage = false
    ∧ reclaimedBeforeProcessEnd main_thread_storage = false := by
  decide

/-- C10: the installed stack byte size is the configured constant rounded
down to a whole multiple of the stack element size,
`cfg / elem * elem`; when the constant is not a multiple of the element size
the installed stack is strictly smaller than the configured byte count. -/
theorem installed_stack_size_rounded_down {A : Type} (sr : Bool)
    (f : Int → A → Option Int) (argc : Int) (argv : A) (cfg elem : Nat) :
    (main sr f argc argv cfg elem).attr.th_stack_size_bytes
      = cfg / elem * elem
    ∧ (¬ elem ∣ cfg →
        (main sr f argc argv cfg elem).attr.th_stack_size_bytes < cfg) := by
  refine ⟨rfl, fun h => ?_⟩
  have hle : cfg / elem * elem ≤ cfg := Nat.div_mul_le_self cfg elem
  have hne : cfg / elem * elem ≠ cfg := by
    intro he
    exact h (he ▸ dvd_mul_left elem (cfg / elem))
  exact lt_of_le_of_ne hle hne

/-- Witness for C10: with a 10-byte configuration and 4-byte elements the
installed size is 8, strictly below 10. -/
theorem installed_stack_size_rounded_down_witness :
    ¬ (4 : Nat) ∣ 10
    ∧ (main true (fun _ _ => some 0) 1 (["prog"] : List String) 10
        4).attr.th_stack_size_bytes = 8
    ∧ (main true (fun _ _ => some 0) 1 (["prog"] : List String) 10
        4).attr.th_stack_size_bytes < 10 :=
  ⟨by decide,
   (installed_stack_size_rounded_down true _ 1 ["prog"] 10 4).1,
   (installed_stack_size_rounded_down true _ 1 ["prog"] 10 4).2 (by decide)⟩


/-- C5: in every run of the bootstrap, scheduler initialization strictly
precedes creation of the main thread, capsule population strictly precedes
creation of the main thread, and creation of the main thread strictly
precedes scheduler start (so no thread-creation attempt can observe an
uninitialized scheduler); initialization, capsule population and the
creation attempt all occur, and scheduler start occurs whenever creation
succeeded. -/
theorem bootstrap_ordering {A : Type} (sr : Bool) (f : Int → A → Option Int)
    (argc : Int) (argv : A) (cfg elem : Nat) :
    (main sr f argc argv cfg elem).boot_trace.findIdx isSchedInit
      < (main sr f argc argv cfg elem).boot_trace.findIdx isThreadCreate
    ∧ (main sr f argc argv cfg elem).boot_trace.findIdx isCapsuleWrite
      < (main sr f argc argv cfg elem).boot_trace.findIdx isThreadCreate
    ∧ (main sr f argc argv cfg elem).boot_trace.findIdx isThreadCreate
      < (main sr f argc argv cfg elem).boot_trace.findIdx isSchedStart
    ∧ (∃ e ∈ (main sr f argc argv cfg elem).boot_trace, isSchedInit e = true)
    ∧ (∃ e ∈ (main sr f argc argv cfg elem).boot_trace,
        isCapsuleWrite e = true)
    ∧ (∃ e ∈ (main sr f argc argv cfg elem).boot_trace,
        isThreadCreate e = true)
    ∧ (kernel_thread_create (cfg / elem * elem) = CreateOutcome.created →
        ∃ e ∈ (main sr f argc argv cfg elem).boot_trace,
          isSchedStart e = true) := by
  by_cases hz : cfg / elem * elem = 0 <;>
    rcases hf : f argc argv with _ | v <;> cases sr <;>
      refine ⟨?_, ?_, ?_, ?_, ?_, ?_, ?_⟩ <;>
        simp [main, kernel_thread_create, lifetime_synchronizer,
          _main_trampoline, hz, hf, isSchedInit, isCapsuleWrite,
          isThreadCreate, isSchedStart, List.findIdx_cons]


/-- Witness for C5's conditional conjunct, at a successful configuration. -/
theorem bootstrap_ordering_witness :
    kernel_thread_create (8 / 4 * 4) = CreateOutcome.created
    ∧ ∃ e ∈ (main true (fun _ _ => some 0) 1 (["prog"] : List String) 8
        4).boot_trace, isSchedStart e = true :=
  ⟨by decide,
   (bootstrap_ordering true _ 1 ["prog"] 8 4).2.2.2.2.2.2 (by decide)⟩

/-- C3: the dual completion contract of the lifetime synchronizer. When
`scheduler::start` never returns, nothing after the start call executes (the
synchronizer's trace stops at `schedStart`, the bootstrap's whole trace ends
there, and no status is returned) — the expected terminal state. When
`scheduler::start` returns, the bootstrap blocks in `join` on the main
thread handle; if that thread reaches its terminal state the bootstrap then
executes `return 0`, and while it has not, the bootstrap stays blocked and
returns nothing. `jc` abstracts the collaborator-determined fact "the joined
thread reached its terminal state". -/
theorem lifetime_synchronizer_dual_contract (A : Type) (jc : Bool)
    (f : Int → A → Option Int) (argc : Int) (argv : A) (cfg elem : Nat)
    (hc : kernel_thread_create (cfg / elem * elem) = CreateOutcome.created) :
    ((lifetime_synchronizer A false jc).fst = [BootEvent.schedStart]
      ∧ (lifetime_synchronizer A false jc).snd = none
      ∧ (main false f argc argv cfg elem).boot_trace.getLast?
          = some BootEvent.schedStart)
    ∧ (BootEvent.threadJoin ∈ (lifetime_synchronizer A true jc).fst
      ∧ (lifetime_synchronizer A true true).snd = some 0
      ∧ (lifetime_synchronizer A true true).fst.getLast?
          = some (BootEvent.returnStatus 0)
      ∧ (lifetime_synchronizer A true false).snd = none) := by
  have hz : ¬ cfg / elem * elem = 0 := by
    intro h
    rw [h] at hc
    simp [kernel_thread_create] at hc
  refine ⟨⟨?_, ?_, ?_⟩, ?_, ?_, ?_, ?_⟩ <;>
    cases jc <;>
      simp [lifetime_synchronizer, main, kernel_thread_create, hz,
        List.getLast?]

/-- Witness for C3 at a successful configuration. -/
theorem lifetime_synchronizer_dual_contract_witness :
    kernel_thread_create (8 / 4 * 4) = CreateOutcome.created
    ∧ (lifetime_synchronizer (List String) false true).snd = none
    ∧ (lifetime_synchronizer (List String) true true).snd = some 0
    ∧ (main false (fun _ _ => some 0) 1 (["prog"] : List String) 8
        4).boot_trace.getLast? = some BootEvent.schedStart :=
  ⟨by decide,
   (lifetime_synchronizer_dual_contract (List String) true
     (fun _ _ => some 0) 1 ["prog"] 8 4 (by decide)).1.2.1,
   (lifetime_synchronizer_dual_contract (List String) true
     (fun _ _ => some 0) 1 ["prog"] 8 4 (by decide)).2.2.1,
   (lifetime_synchronizer_dual_contract (List String) true
     (fun _ _ => some 0) 1 ["prog"] 8 4 (by decide)).1.2.2⟩

/-- C4: whenever the user entry point returns some value v — on any kernel,
including host-simulated ones where `scheduler::start` returns — the
bootstrap's final `return 0` never executes: no `returnStatus` event appears
in the bootstrap's trace and the process result is never `returnedFromMain`,
because the trampoline ends the whole process via `std::exit` before the
join on the main thread can complete; with a usable configuration the
process in fact exits with status v. -/
theorem return_zero_unreachable_when_os_main_returns {A : Type} (sr : Bool)
    (f : Int → A → Option Int) (argc : Int) (argv : A) (cfg elem : Nat)
    (v : Int) (h : f argc argv = some v) :
    (∀ e ∈ (main sr f argc argv cfg elem).boot_trace,
      isReturnStatus e = false)
    ∧ (∀ r : Int, (main sr f argc argv cfg elem).result
        ≠ ProcessResult.returnedFromMain r)
    ∧ (kernel_thread_create (cfg / elem * elem) = CreateOutcome.created →
        (main sr f argc argv cfg elem).result = ProcessResult.exited v) := by
  by_cases hz : cfg / elem * elem = 0 <;> cases sr <;>
    refine ⟨?_, ?_, ?_⟩ <;>
      simp [main, kernel_thread_create, lifetime_synchronizer,
        _main_trampoline, hz, h, isReturnStatus]

/-- Witness for C4 on a host-simulated kernel with a returning entry point. -/
theorem return_zero_unreachable_witness :
    (∀ e ∈ (main true (fun _ _ => some 3) 1 (["prog"] : List String) 8
        4).boot_trace, isReturnStatus e = false)
    ∧ (main true (fun _ _ => some 3) 1 (["prog"] : List String) 8 4).result
        = ProcessResult.exited 3 :=
  ⟨(return_zero_unreachable_when_os_main_returns true _ 1 ["prog"] 8 4 3
      rfl).1,
   (return_zero_unreachable_when_os_main_returns true _ 1 ["prog"] 8 4 3
      rfl).2.2 (by decide)⟩

/-- C7: with the configured stack size constant equal to 0 the installed
stack size is 0, the kernel collaborator reports the creation attempt as a
fatal configuration error, and the run ends in `fatalError` — never a silent
success; and for every configuration the bootstrap makes exactly one
creation attempt, so it performs no validation, retry or recovery of its
own. The creation contract is modelled from the spec, since the kernel's
`Thread` code is outside this repository's sources. -/
theorem zero_stack_size_fatal {A : Type} (sr : Bool)
    (f : Int → A → Option Int) (argc : Int) (argv : A) (elem : Nat) :
    (main sr f argc argv 0 elem).attr.th_stack_size_bytes = 0
    ∧ kernel_thread_create
        ((main sr f argc argv 0 elem).attr.th_stack_size_bytes)
        = CreateOutcome.fatalConfigError
    ∧ (main sr f argc argv 0 elem).result = ProcessResult.fatalError
    ∧ BootEvent.threadCreate "main" Addr.main_stack_base 0 Addr.args_addr
        CreateOutcome.fatalConfigError ∈ (main sr f argc argv 0 elem).boot_trace
    ∧ (∀ cfg : Nat,
        (main sr f argc argv cfg elem).boot_trace.countP isThreadCreate
          = 1) := by
  refine ⟨by simp [main], by simp [main, kernel_thread_create],
    by simp [main, kernel_thread_create], by simp [main, kernel_thread_create],
    fun cfg => ?_⟩
  by_cases hz : cfg / elem * elem = 0 <;>
    rcases hf : f argc argv with _ | v <;> cases sr <;>
      simp [main, kernel_thread_create, lifetime_synchronizer,
        _main_trampoline, hz, hf, isThreadCreate, List.countP_cons]

/-- C8: the capsule the bootstrap populates holds exactly the entry point,
count and vector it was given; the bootstrap writes the capsule exactly
once, strictly before the thread-creation attempt, and never again; and the
trampoline, run on that capsule, reads it exactly once and invokes the entry
point with the stored count and vector unchanged. -/
theorem capsule_write_once_read_once {A : Type} (sr : Bool)
    (f : Int → A → Option Int) (argc : Int) (argv : A) (cfg elem : Nat) :
    (main sr f argc argv cfg elem).args = ⟨f, argc, argv⟩
    ∧ (main sr f argc argv cfg elem).boot_trace.countP isCapsuleWrite = 1
    ∧ (main sr f argc argv cfg elem).boot_trace.findIdx isCapsuleWrite
        < (main sr f argc argv cfg elem).boot_trace.findIdx isThreadCreate
    ∧ BootEvent.capsuleWrite argc argv
        ∈ (main sr f argc argv cfg elem).boot_trace
    ∧ (_main_trampoline (main sr f argc argv cfg elem).args).fst.countP
        isCapsuleRead = 1
    ∧ TrampEvent.invoke argc argv
        ∈ (_main_trampoline (main sr f argc argv cfg elem).args).fst := by
  by_cases hz : cfg / elem * elem = 0 <;>
    rcases hf : f argc argv with _ | v <;> cases sr <;>
      refine ⟨rfl, ?_, ?_, ?_, ?_, ?_⟩ <;>
        simp [main, kernel_thread_create, lifetime_synchronizer,
          _main_trampoline, hz, hf, isCapsuleWrite, isThreadCreate,
          isCapsuleRead, List.countP_cons, List.findIdx_cons]

end OsMain
